import Mathlib

/-!
Shallow embedding of the CHIP-8 virtual machine core from `src/vm/vm.rs`
(romatthe/chipper), together with theorems checking the specification's
claims about loading, the stack, the display buffer and the clock fields.

Machine bytes are modelled as `Nat` (all values written by the code under
scrutiny are in range, so no wrapping arises); the Rust `int32`/`int64`
fields are modelled as `Int`.  Rust's `clone_from_slice`, which panics when
the source and destination slices differ in length, is modelled by an
`Option`-returning function (`none` = panic), and `load_rom`'s outcome type
distinguishes a returned VM, a returned error, and a runtime panic.
-/

set_option autoImplicit false

/-- The register file of `src/vm/vm.rs` (`struct Registers`): address
register `i`, sixteen 8-bit registers `v`, eight HP-RPL flag registers `r`,
and the two timer deadlines `dt`, `st` (ns instants, `int64` in the source). -/
structure Registers where
  i : Nat
  v : List Nat
  r : List Nat
  dt : Int
  st : Int
  deriving Repr, DecidableEq

/-- The VM state of `src/vm/vm.rs` (`struct VM`).  Fixed-size Rust arrays are
modelled as lists (their lengths are established by theorems below).  The
source declares `clock` and `cycles` as `int64`, but `VM::new` assigns them
the unit value `()`; they are therefore embedded as `Option Int`, with
`none` standing for that unit placeholder (no integer value assigned). -/
structure VM where
  rom : List Nat
  rom_size : Int
  memory : List Nat
  video : List Nat
  stack : List Nat
  sp : Nat
  pc : Nat
  regs : Registers
  clock : Option Int
  cycles : Option Int
  speed : Int
  keys : List Bool
  pitch : Int
  deriving Repr, DecidableEq

/-- Outcome of `load_rom`: a constructed VM, a returned error value
(the source returns the string literal shown below for oversized programs),
or a runtime panic (Rust aborts the computation; no VM is produced). -/
inductive LoadResult where
  | ok (vm : VM)
  | err (msg : String)
  | panic
  deriving Repr, DecidableEq

/-- Errors of the stack operations described by the spec (§3, §7). -/
inductive EngineError where
  | StackOverflow
  | StackUnderflow
  deriving Repr, DecidableEq

/-- Rust `dst[lo..hi].clone_from_slice(src)`: replaces the range
`[lo, hi)` of `dst` by `src`.  Panics (modelled as `none`) when the source
length differs from the range length, or the range is out of bounds. -/
def cloneFromSlice (dst : List Nat) (lo hi : Nat) (src : List Nat) : Option (List Nat) :=
  if src.length = hi - lo ∧ lo ≤ hi ∧ hi ≤ dst.length then
    some (dst.take lo ++ src ++ dst.drop hi)
  else
    none

/-- Modelled from the spec: `EMULATOR_ROM` lives in `src/vm/rom.rs`, which is
not among the provided sources; the spec (§3, §4.1) fixes only that it is the
512 reserved font/interpreter bytes occupying `[0x000, 0x200)`.  Its byte
values are unspecified and unused by the claims, so zeros stand in; only its
length (0x200) matters below. -/
def EMULATOR_ROM : List Nat := List.replicate 0x200 0

/-- `Registers::new` from `src/vm/vm.rs`. -/
def Registers.new : Registers :=
  { i := 0
    v := List.replicate 16 0
    r := List.replicate 8 0
    dt := 0
    st := 0 }

/-- `VM::new` from `src/vm/vm.rs`.  Note the source assigns the unit value
`()` to the `int64` fields `clock` and `cycles`; this is embedded as `none`. -/
def VM.new : VM :=
  { rom := List.replicate 0x1000 0
    rom_size := 0
    memory := List.replicate 0x1000 0
    video := List.replicate 0x440 0
    stack := List.replicate 16 0
    sp := 0
    pc := 0x200
    regs := Registers.new
    clock := none
    cycles := none
    speed := 700
    keys := List.replicate 16 false
    pitch := 8 }

/-- `load_rom` from `src/vm/vm.rs`: rejects programs longer than 0x800
bytes, otherwise constructs a fresh VM, records the program length in
`rom_size`, and performs the two `clone_from_slice` calls of lines 88-89:
`rom[..0x200] ← EMULATOR_ROM` and `rom[0x200..] ← program`.  Either clone
panics when the lengths mismatch. -/
def load_rom (program : List Nat) : LoadResult :=
  if program.length > 0x800 then
    LoadResult.err "The program is too large to fit into memory"
  else
    match cloneFromSlice (VM.new).rom 0 0x200 EMULATOR_ROM with
    | none => LoadResult.panic
    | some rom1 =>
      match cloneFromSlice rom1 0x200 0x1000 program with
      | none => LoadResult.panic
      | some rom2 =>
        LoadResult.ok { VM.new with rom_size := (program.length : Int), rom := rom2 }

/-- Modelled from the spec (§3, §4.2): the call-stack push used by the call
opcode is not among the provided sources; the spec fixes that pushing beyond
depth 16 is a fatal `StackOverflow`, otherwise the address is stored and the
stack pointer incremented. -/
def VM.push (vm : VM) (addr : Nat) : Except EngineError VM :=
  if vm.sp < 16 then
    Except.ok { vm with stack := vm.stack.set vm.sp addr, sp := vm.sp + 1 }
  else
    Except.error EngineError.StackOverflow

/-- Modelled from the spec (§3, §4.2): the call-stack pop used by the return
opcode is not among the provided sources; the spec fixes that popping from an
empty stack is a fatal `StackUnderflow`, otherwise the stack pointer is
decremented and the stored address returned. -/
def VM.pop (vm : VM) : Except EngineError (VM × Nat) :=
  if vm.sp = 0 then
    Except.error EngineError.StackUnderflow
  else
    Except.ok ({ vm with sp := vm.sp - 1 }, vm.stack.getD (vm.sp - 1) 0)

/-- Modelled from the spec (§3): resolution switching is not among the
provided sources; the spec and the `pitch` field's doc comment fix the row
stride at 8 bytes in low resolution and 16 in high resolution. -/
def pitchFor (high : Bool) : Int :=
  if high then 16 else 8

/-- Modelled from the spec (§3) and the `video` field's doc comment: one bit
per pixel, stored MSB first, so pixel `(x, y)` is bit `0x80 >>> (x % 8)` of
byte `y * pitch + x / 8`.  The drawing code itself is not among the provided
sources. -/
def pixel (video : List Nat) (pitch x y : Nat) : Bool :=
  Nat.testBit (video.getD (y * pitch + x / 8) 0) (7 - x % 8)

theorem load_rom_eq_panic_of_le (p : List Nat) (h : p.length ≤ 0x800) :
    load_rom p = LoadResult.panic := by
  unfold load_rom
  rw [if_neg (by omega)]
  split
  · rfl
  · rename_i rom1 heq
    have h2 : cloneFromSlice rom1 0x200 0x1000 p = none := by
      unfold cloneFromSlice
      rw [if_neg]
      rintro ⟨hc, -, -⟩
      omega
    rw [h2]

/-- C3: the claim asserts `load_rom` completes without a runtime panic on
every accepted program.  In fact, for every program passing the size check
(length at most 0x800 bytes), `rom[0x200..].clone_from_slice(&program)`
panics: the destination slice has 0xE00 bytes while the program has at most
0x800, and `clone_from_slice` requires equal lengths.  So `load_rom` panics
on every accepted input. -/
theorem load_rom_panics_on_accepted (p : List Nat) (h : p.length ≤ 0x800) :
    load_rom p = LoadResult.panic :=
  load_rom_eq_panic_of_le p h

theorem load_rom_panics_on_accepted_witness :
    ([] : List Nat).length ≤ 0x800 ∧ load_rom [] = LoadResult.panic :=
  ⟨by decide, load_rom_panics_on_accepted [] (by decide)⟩

/-- C1: the claim asserts that after a successful load, `memory` holds the
program at 0x200 and the reserved bytes below it.  Evaluating the code at
the accepted one-byte program `[0xAB]` shows `load_rom` panics and returns
no VM at all; moreover the only `memory` array the code ever constructs
(`VM::new`'s) is all zeros — `load_rom` writes `rom`, never `memory`. -/
theorem load_rom_no_memory_copy :
    load_rom [0xAB] = LoadResult.panic ∧ (VM.new).memory = List.replicate 0x1000 0 :=
  ⟨load_rom_eq_panic_of_le [0xAB] (by decide), rfl⟩

/-- C2: the claim asserts a 0x800-byte program loads successfully and a
0x801-byte one fails with `ProgramTooLarge`.  The 0x801-byte half holds,
but a 0x800-byte program does not succeed: it passes the size check and
then panics in `clone_from_slice`. -/
theorem load_rom_boundary_behavior :
    load_rom (List.replicate 0x800 0) = LoadResult.panic ∧
    load_rom (List.replicate 0x801 0) =
      LoadResult.err "The program is too large to fit into memory" := by
  constructor
  · exact load_rom_eq_panic_of_le _ (by simp only [List.length_replicate]; omega)
  · unfold load_rom
    rw [if_pos (by simp only [List.length_replicate]; omega)]

/-- C4: the claim describes the `rom` layout of a successfully loaded VM,
but no load ever succeeds: at the accepted program `[0x01, 0x02]` the copy
of the program into `rom[0x200..]` is itself the panicking call, so the
claimed layout is never produced. -/
theorem load_rom_rom_layout_unreached :
    load_rom [0x01, 0x02] = LoadResult.panic :=
  load_rom_eq_panic_of_le [0x01, 0x02] (by decide)

/-- C5: the claim asserts every successfully loaded VM has `pc = 0x200`.
`VM::new` does set `pc = 0x200`, but `load_rom` never returns a VM: at the
accepted program `[0x00]` it panics. -/
theorem load_rom_pc_unreached :
    load_rom [0x00] = LoadResult.panic ∧ (VM.new).pc = 0x200 :=
  ⟨load_rom_eq_panic_of_le [0x00] (by decide), rfl⟩

/-- C10: the claim describes `load_rom`'s frame effect (only `rom` and
`rom_size` differ from the `VM::new` defaults after load), but there is no
post-state to observe: at the accepted program `[0xFF, 0xFF]` `load_rom`
panics before returning. -/
theorem load_rom_frame_effect_unreached :
    load_rom [0xFF, 0xFF] = LoadResult.panic :=
  load_rom_eq_panic_of_le [0xFF, 0xFF] (by decide)

/-- C7: the claim asserts `clock` is stamped with the current instant and
`cycles` starts at zero at construction.  `VM::new` assigns the unit
placeholder `()` (embedded as `none`) to both `int64` fields, contradicting
the field documentation and the claim: neither a timestamp nor zero is
stored. -/
theorem clock_cycles_unassigned :
    (VM.new).clock = none ∧ (VM.new).cycles = none :=
  ⟨rfl, rfl⟩

/-- C9: a freshly constructed VM has `speed = 700` instructions per second,
the source's only configuration default (`VM::new` and `load_rom` take no
other configuration input). -/
theorem speed_default_700 : (VM.new).speed = 700 :=
  rfl

/-- C8: the video buffer of a fresh VM is 0x440 = 1088 bytes, exactly the
128×64 high-resolution bitmap (1024 bytes) plus 4 guard scan lines of 16
bytes each; the row stride is 8 bytes in low resolution and 16 in high; a
fresh VM has pitch 8; and the packing is MSB first — pixel (0,0) is bit
0x80 of byte 0, as the source's `video` doc comment states. -/
theorem display_buffer_layout :
    (VM.new).video.length = 0x440 ∧
    0x440 = 128 * 64 / 8 + 4 * 16 ∧
    (VM.new).pitch = 8 ∧
    pitchFor false = 8 ∧ pitchFor true = 16 ∧
    ∀ b : Nat, pixel (b :: List.replicate 0x43F 0) 8 0 0 = b.testBit 7 := by
  refine ⟨by simp only [VM.new, List.length_replicate], by norm_num, rfl, rfl, rfl, ?_⟩
  intro b
  simp only [pixel, Nat.zero_mul, Nat.zero_div, Nat.add_zero, Nat.zero_add,
    List.getD_cons_zero, Nat.zero_mod, Nat.sub_zero]

/-- C6: the stack is a fixed array of 16 addresses with `sp = 0` initially;
push and pop preserve `sp ≤ 16` and the stack length; pushing at depth 16
fails with `StackOverflow` and popping an empty stack fails with
`StackUnderflow`, each an error value rather than a silent no-op. -/
theorem stack_discipline (vm : VM) (a : Nat) (h : vm.sp ≤ 16) :
    (vm.sp = 16 → vm.push a = Except.error EngineError.StackOverflow) ∧
    (vm.sp = 0 → vm.pop = Except.error EngineError.StackUnderflow) ∧
    (∀ vm2, vm.push a = Except.ok vm2 →
      vm2.sp ≤ 16 ∧ vm2.stack.length = vm.stack.length) ∧
    (∀ x, vm.pop = Except.ok x →
      x.1.sp ≤ 16 ∧ x.1.stack.length = vm.stack.length) ∧
    (VM.new).stack.length = 16 ∧ (VM.new).sp = 0 := by
  refine ⟨?_, ?_, ?_, ?_, by simp only [VM.new, List.length_replicate], rfl⟩
  · intro h16
    unfold VM.push
    rw [if_neg (by omega)]
  · intro h0
    unfold VM.pop
    rw [if_pos h0]
  · intro vm2 hok
    unfold VM.push at hok
    by_cases hlt : vm.sp < 16
    · rw [if_pos hlt] at hok
      injection hok with h2
      subst h2
      exact ⟨by show vm.sp + 1 ≤ 16; omega, by simp⟩
    · rw [if_neg hlt] at hok
      exact absurd hok (by simp)
  · intro x hok
    unfold VM.pop at hok
    by_cases h0 : vm.sp = 0
    · rw [if_pos h0] at hok
      exact absurd hok (by simp)
    · rw [if_neg h0] at hok
      injection hok with h2
      subst h2
      exact ⟨by show vm.sp - 1 ≤ 16; omega, rfl⟩

theorem stack_discipline_witness :
    (VM.new).sp ≤ 16 ∧
    (((VM.new).sp = 16 →
        (VM.new).push 0x234 = Except.error EngineError.StackOverflow) ∧
      ((VM.new).sp = 0 →
        (VM.new).pop = Except.error EngineError.StackUnderflow) ∧
      (∀ vm2, (VM.new).push 0x234 = Except.ok vm2 →
        vm2.sp ≤ 16 ∧ vm2.stack.length = (VM.new).stack.length) ∧
      (∀ x, (VM.new).pop = Except.ok x →
        x.1.sp ≤ 16 ∧ x.1.stack.length = (VM.new).stack.length) ∧
      (VM.new).stack.length = 16 ∧ (VM.new).sp = 0) :=
  ⟨by decide, stack_discipline VM.new 0x234 (by decide)⟩
